import Mathlib

/-!
Verification development for the source file `python/hihue.py` of the
vim-hi-hue plugin.  The relevant parts of the source are shallowly embedded:

* hex-token parsing of `_set_color` (lines 158-160),
* the regex `colorPattern` (line 150) under `re.match` prefix semantics,
* the dispatcher `_set_color` (lines 153-180) with its dedupe check,
  device-call sequence and the `try`/`except` that only guards device calls,
* the tracker `try_highlight_word` (lines 188-201) with its guard
  `lastWord != word and time.time_ns() // 10E3 - lastTimestamp >= 1000`
  and the update `lastTimestamp = time.time_ns() // 10E6`,
* the color conversion `_rgb_to_xy` (lines 112-141) over idealized reals,
* the command `connect` (lines 221-249).

Python numbers are modelled as `ℚ` (floats idealized as exact rationals;
`time.time_ns() // 10E3` is modelled as exact integer floor division, the
float rounding of nanosecond counts above 2^53 is ignored since no claim
depends on it).  Python `None` / strings / 3-tuples flowing through
`_set_color` are modelled by the inductive `PyVal`.  Exceptions are modelled
by `Except PyErr`; an exception escaping a function is `.error`, a caught
exception is ordinary control flow.
-/

namespace HiHue

/-- Python values that can flow into `_set_color` and be stored in the
global `currentColor`: `None`, a string, or a tuple of three numbers. -/
inductive PyVal where
  | none : PyVal
  | str : String → PyVal
  | rgb : ℚ → ℚ → ℚ → PyVal
deriving DecidableEq

/-- Python exceptions that can escape the embedded functions. -/
inductive PyErr where
  | valueError : String → PyErr
  | nameError : String → PyErr
deriving DecidableEq

instance instExceptDecEq {ε α : Type} [DecidableEq ε] [DecidableEq α] :
    DecidableEq (Except ε α) := fun a b =>
  match a, b with
  | Except.error e, Except.error f =>
    if h : e = f then Decidable.isTrue (by rw [h])
    else Decidable.isFalse (by intro hh; cases hh; exact h rfl)
  | Except.ok x, Except.ok y =>
    if h : x = y then Decidable.isTrue (by rw [h])
    else Decidable.isFalse (by intro hh; cases hh; exact h rfl)
  | Except.error _, Except.ok _ => Decidable.isFalse (by intro hh; cases hh)
  | Except.ok _, Except.error _ => Decidable.isFalse (by intro hh; cases hh)

/-- Decimal digit or hex letter test, the character class `[a-fA-F0-9]`
of `colorPattern` (line 150). -/
def hexChar (c : Char) : Bool :=
  if ('0' ≤ c ∧ c ≤ '9') ∨ ('a' ≤ c ∧ c ≤ 'f') ∨ ('A' ≤ c ∧ c ≤ 'F') then true else false

/-- Value of a single hex digit, as accepted by Python `int(·, 16)`. -/
def hexVal (c : Char) : Option ℕ :=
  if '0' ≤ c ∧ c ≤ '9' then some (c.toNat - '0'.toNat)
  else if 'a' ≤ c ∧ c ≤ 'f' then some (c.toNat - 'a'.toNat + 10)
  else if 'A' ≤ c ∧ c ≤ 'F' then some (c.toNat - 'A'.toNat + 10)
  else Option.none

/-- Accumulate a nonempty all-hex digit string; `Option.none` models the
`ValueError` that Python `int(·, 16)` raises on an empty string or on a
string containing a non-hex character. -/
def hexNum : List Char → Option ℕ
  | [] => Option.none
  | l => l.foldl (fun acc c => acc.bind fun a => (hexVal c).map fun d => 16 * a + d) (some 0)

/-- Python `int(s, 16)` on the short slices produced by `_set_color`
(line 160): an optional single leading sign followed by hex digits.
(Whitespace, underscores and a `0x` prefix cannot make a difference on the
two-character slices that occur here.) -/
def pyIntHex (l : List Char) : Option ℤ :=
  match l with
  | '+' :: rest => (hexNum rest).map fun n => (n : ℤ)
  | '-' :: rest => (hexNum rest).map fun n => -(n : ℤ)
  | _ => (hexNum l).map fun n => (n : ℤ)

/-- Python slice `l[i:i+2]` with clamping. -/
def pySlice2 (l : List Char) (i : ℕ) : List Char :=
  (l.drop i).take 2

/-- Lines 159-160 of the source:
`tuple(int(color.lstrip('#')[i:i+2], 16) / 255 for i in (0, 2, 4))`.
`Option.none` models the uncaught `ValueError` (any of the three slices
empty or not parseable as a base-16 integer). -/
def parseColorStr (s : String) : Option PyVal := do
  let t := s.data.dropWhile (· = '#')
  let a ← pyIntHex (pySlice2 t 0)
  let b ← pyIntHex (pySlice2 t 2)
  let c ← pyIntHex (pySlice2 t 4)
  some (PyVal.rgb ((a : ℚ) / 255) ((b : ℚ) / 255) ((c : ℚ) / 255))

/-- The regex `#[a-fA-F0-9]{3}([a-fA-F0-9]{3})?` (line 150) under
`re.match` semantics, on the character list of the token.  `re.match`
anchors only at the start and does not require the whole string to be
consumed, and the trailing optional group can never cause a failure, so the
pattern matches exactly when the token starts with `#` followed by at least
three hex digits. -/
def colorPatternMatchL (l : List Char) : Bool :=
  match l with
  | c0 :: c1 :: c2 :: c3 :: _ =>
    if c0 = '#' then hexChar c1 && hexChar c2 && hexChar c3 else false
  | _ => false

/-- `colorPattern.match(word)` truthiness (line 193). -/
def colorPatternMatch (s : String) : Bool :=
  colorPatternMatchL s.data

/-- Follows the words of the specification, for comparison with
`colorPatternMatchL`: the entire token is `#` followed by exactly 3 or
exactly 6 hex digits. -/
def specColorExactL (l : List Char) : Bool :=
  match l with
  | c0 :: rest =>
    if c0 = '#' then (rest.length == 3 || rest.length == 6) && rest.all hexChar else false
  | [] => false

/-- Follows the words of the specification, on the token string. -/
def specColorExact (s : String) : Bool :=
  specColorExactL s.data

/-- Startup-resolved configuration and connection status: `connected`
stands for `bridge is not None and config is not None` (line 155),
`maxBrightness` for `g:hiHue#maxBrightness`, `fallbackEnabled` for the
global `fallbackIfNotOverColor` (lines 148-149) and `fallbackColor` for the
global of line 184. -/
structure Env where
  connected : Bool
  maxBrightness : ℚ
  fallbackEnabled : Bool
  fallbackColor : PyVal
deriving DecidableEq

/-- The module-level mutable globals read and written by the tracker and
the dispatcher: `lastWord` (line 144; Python `""` initially, a string or
`None` afterwards, modelled as `Option String` with `some ""` initially),
`lastTimestamp` (line 145), `currentColor` (line 146) and
`lightIsFallback` (line 147). -/
structure TState where
  lastWord : Option String
  lastTimestamp : ℕ
  currentColor : PyVal
  lightIsFallback : Bool
deriving DecidableEq

/-- The initial values of lines 144-147. -/
def stInit : TState :=
  ⟨some "", 0, PyVal.none, true⟩

/-- One observable call on the phue bridge object.  `setXY` records the
three arguments passed to `_rgb_to_xy` at line 173 (the conversion itself
is modelled separately by `rgb_to_xy`). -/
inductive DeviceCall where
  | setOn : Bool → DeviceCall
  | setBri : ℤ → DeviceCall
  | getLights : DeviceCall
  | setXY : ℚ → ℚ → ℚ → DeviceCall
deriving DecidableEq

/-- Python `int(q)`: truncation toward zero. -/
def pyTrunc (q : ℚ) : ℤ :=
  if 0 ≤ q then ⌊q⌋ else -⌊-q⌋

/-- The warning printed by the `except` clause at line 179 (the exception
text appended by the f-string is abstracted away). -/
def hiHueError : String := "[HiHue] Error"

/-- The message printed at line 156. -/
def noBridgeMsg : String := "No bridge or config"

/-- The bridge calls attempted in order inside the `try` block of
`_set_color` (lines 163-177), as a function of the (post-parse) color.
For a non-`(0,0,0)` tuple: light on, brightness, `get_light_objects`, set
xy.  For the `(0,0,0)` tuple: light off.  For `None` (possible via
`fallbackColor`): `None != (0, 0, 0)` is true in Python, so the on-branch
runs its first three calls and then `color[0]` raises a `TypeError`, which
the `except` clause catches; no xy call happens. -/
def plannedCalls (env : Env) (color : PyVal) : List DeviceCall :=
  match color with
  | PyVal.rgb r g b =>
    if (r, g, b) ≠ ((0 : ℚ), (0 : ℚ), (0 : ℚ)) then
      [DeviceCall.setOn true, DeviceCall.setBri (pyTrunc (env.maxBrightness * 255)),
       DeviceCall.getLights, DeviceCall.setXY r g b]
    else
      [DeviceCall.setOn false]
  | _ =>
    [DeviceCall.setOn true, DeviceCall.setBri (pyTrunc (env.maxBrightness * 255)),
     DeviceCall.getLights]

/-- Whether running the whole `try` block to completion reaches the
assignment to `currentColor` (lines 174 / 177) without raising: true only
for tuple colors; `None` (or a string, unreachable after parsing) raises a
`TypeError` at `color[0]` which is caught. -/
def tryCompletes (color : PyVal) : Bool :=
  match color with
  | PyVal.rgb _ _ _ => true
  | _ => false

/-- Lines 158-160 of `_set_color`: a string argument is parsed into a
tuple (`None` and tuples pass through unchanged); this happens before the
`try` block, so a `ValueError` here escapes `_set_color`. -/
def parseStage : PyVal → Except PyErr PyVal
  | PyVal.str s =>
    match parseColorStr s with
    | some v => Except.ok v
    | Option.none => Except.error (PyErr.valueError "invalid literal for int() with base 16")
  | PyVal.none => Except.ok PyVal.none
  | PyVal.rgb r g b => Except.ok (PyVal.rgb r g b)

/-- Lines 162-179 of `_set_color`: the dedupe check and the `try` block.
Given the recorded `currentColor` and the (post-parse) `color`, produces the
new value of `currentColor`, the bridge calls executed, and the messages
printed.  `failAt = some k` makes the `k`-th bridge call (0-based) raise;
`Option.none` means every bridge call succeeds.  An exception anywhere in
the `try` block is caught by the `except` clause (line 178) before the
assignment to `currentColor`, which is therefore left unchanged. -/
def runTry (env : Env) (cur : PyVal) : Option ℕ → PyVal → PyVal × List DeviceCall × List String
  | some k, color =>
    if k < (plannedCalls env color).length then
      (cur, (plannedCalls env color).take k, [hiHueError])
    else if tryCompletes color then
      (color, plannedCalls env color, [])
    else
      (cur, plannedCalls env color, [hiHueError])
  | Option.none, color =>
    if tryCompletes color then
      (color, plannedCalls env color, [])
    else
      (cur, plannedCalls env color, [hiHueError])

/-- The dedupe check at line 162 guarding `runTry`. -/
def dispatch (env : Env) (cur : PyVal) (failAt : Option ℕ) (color : PyVal)
    (force : Bool) : PyVal × List DeviceCall × List String :=
  if cur ≠ color ∨ force = true then
    runTry env cur failAt color
  else
    (cur, [], [])

/-- `_set_color(color, force)` (lines 153-180): the disconnected early
return (lines 155-157), the parse stage (lines 158-160, whose `ValueError`
escapes), then the dedupe/`try` logic of `dispatch`, which only ever
touches `currentColor`.  The result carries the new global state, the
bridge calls that were executed, the messages printed, and the Python
return value (`None` from the bare `return` at line 157, otherwise the
post-parse `color` from line 180). -/
def set_color (env : Env) (st : TState) (failAt : Option ℕ) (color0 : PyVal)
    (force : Bool) : Except PyErr (TState × List DeviceCall × List String × PyVal) :=
  if env.connected = false then
    Except.ok (st, [], [noBridgeMsg], PyVal.none)
  else
    match parseStage color0 with
    | Except.error e => Except.error e
    | Except.ok color =>
      Except.ok
        (⟨st.lastWord, st.lastTimestamp,
           (dispatch env st.currentColor failAt color force).1, st.lightIsFallback⟩,
         (dispatch env st.currentColor failAt color force).2.1,
         (dispatch env st.currentColor failAt color force).2.2, color)

/-- `try_highlight_word()` (lines 188-201).  `word` is the value of
`expand('<cWORD>')`; `ns1` and `ns2` are the results of the two
`time.time_ns()` calls (line 192 and line 201).  The guard divides by
`10E3` (= 10^4) while the update divides by `10E6` (= 10^7), exactly as in
the source.  The function body assigns `lightIsFallback` without a
`global` declaration (unlike `lastWord` and `lastTimestamp`, lines
190-191), so in Python those assignments create a function-local variable
and the module-level flag is never written: the embedding therefore leaves
`lightIsFallback` unchanged. -/
def try_highlight_word (env : Env) (st : TState) (word : String) (ns1 ns2 : ℕ)
    (failAt : Option ℕ) : Except PyErr (TState × List DeviceCall) :=
  if st.lastWord ≠ some word ∧
      (1000 : ℤ) ≤ Int.ofNat (ns1 / 10 ^ 4) - Int.ofNat st.lastTimestamp then
    if colorPatternMatch word then
      match set_color env st failAt (PyVal.str word) false with
      | Except.error e => Except.error e
      | Except.ok (st1, calls, _, _) =>
        Except.ok (⟨some word, ns2 / 10 ^ 7, st1.currentColor, st1.lightIsFallback⟩, calls)
    else if env.fallbackEnabled then
      match set_color env st failAt env.fallbackColor false with
      | Except.error e => Except.error e
      | Except.ok (st1, calls, _, _) =>
        Except.ok (⟨Option.none, ns2 / 10 ^ 7, st1.currentColor, st1.lightIsFallback⟩, calls)
    else
      Except.ok (⟨st.lastWord, ns2 / 10 ^ 7, st.currentColor, st.lightIsFallback⟩, [])
  else
    Except.ok (st, [])

/-- Observable effect of a completed `connect(*vargs)` call (lines
221-249): messages printed, the vim variables written by the two
`vim.command` calls (lines 243-246), and whether the globals `bridge` and
`config` were rebound by `_connect` (line 249). -/
structure ConnectEffect where
  printed : List String
  setBridgeIp : Option String
  setLightName : Option String
  reconnected : Bool
deriving DecidableEq

/-- `connect(*vargs)` (lines 221-249).  With more than two arguments it
prints and returns (lines 222-224).  With exactly one argument the branch
at line 233 evaluates the undefined name `arg`, raising a `NameError`
before anything is written.  With two arguments both vim variables are set
and `_connect` is invoked; with none, neither variable is set and
`_connect` is invoked. -/
def connect (vargs : List String) : Except PyErr ConnectEffect :=
  if vargs.length > 2 then
    Except.ok ⟨["Too many arguments"], Option.none, Option.none, false⟩
  else
    match vargs with
    | [_] => Except.error (PyErr.nameError "arg")
    | [a, b] => Except.ok ⟨[], some a, some b, true⟩
    | _ => Except.ok ⟨[], Option.none, Option.none, true⟩

/-- Gamma correction of one channel, lines 125-130 of `_rgb_to_xy` (the
same expression is applied to each of the three channels). -/
noncomputable def gammaCorrect (c : ℝ) : ℝ :=
  if c > 0.04045 then ((c + 0.055) / (1.0 + 0.055)) ^ (2.4 : ℝ) else c / 12.92

/-- `_rgb_to_xy` (lines 112-141).  The source reassigns `x` to the
normalized value at line 138 and then computes `y` at line 139 using the
already-reassigned `x`; the `let` chain mirrors this sequencing. -/
noncomputable def rgb_to_xy (red green blue : ℝ) : ℝ × ℝ :=
  let red := gammaCorrect red
  let green := gammaCorrect green
  let blue := gammaCorrect blue
  let x := red * 0.649926 + green * 0.103455 + blue * 0.197109
  let y := red * 0.234327 + green * 0.743075 + blue * 0.022598
  let z := green * 0.053077 + blue * 1.035763
  let x1 := x / (x + y + z)
  let y1 := y / (x1 + y + z)
  (x1, y1)

/-- Follows the words of the specification (§4.1), for comparison with
`rgb_to_xy`: gamma expansion per channel. -/
noncomputable def specGamma (c : ℝ) : ℝ :=
  if c ≤ 0.04045 then c / 12.92 else ((c + 0.055) / 1.055) ^ (2.4 : ℝ)

/-- Follows the words of the specification: `X = 0.649926·R + 0.103455·G
+ 0.197109·B` on gamma-expanded channels. -/
noncomputable def specX (r g b : ℝ) : ℝ :=
  0.649926 * specGamma r + 0.103455 * specGamma g + 0.197109 * specGamma b

/-- Follows the words of the specification: `Y = 0.234327·R + 0.743075·G
+ 0.022598·B` on gamma-expanded channels. -/
noncomputable def specY (r g b : ℝ) : ℝ :=
  0.234327 * specGamma r + 0.743075 * specGamma g + 0.022598 * specGamma b

/-- Follows the words of the specification: `Z = 0.053077·G + 1.035763·B`
on gamma-expanded channels. -/
noncomputable def specZ (g b : ℝ) : ℝ :=
  0.053077 * specGamma g + 1.035763 * specGamma b

/-- Follows the words of the specification: `x = X/(X+Y+Z)`,
`y = Y/(X+Y+Z)`. -/
noncomputable def spec_toDeviceColorSpace (r g b : ℝ) : ℝ × ℝ :=
  (specX r g b / (specX r g b + specY r g b + specZ g b),
   specY r g b / (specX r g b + specY r g b + specZ g b))

/-- Environment of a connected session with default options
(`maxBrightness = 1.0`, fallback enabled, fallback color resolved at
startup to the parsed `(0, 0, 0)`). -/
def envC : Env :=
  ⟨true, 1, true, PyVal.rgb 0 0 0⟩

/-- Environment with no active session (`bridge is None`). -/
def envD : Env :=
  ⟨false, 1, true, PyVal.none⟩

theorem true_ne_false_aux : (true : Bool) ≠ false := fun h => Bool.noConfusion h

theorem set_color_connected_rgb (env : Env) (st : TState) (failAt : Option ℕ)
    (r g b : ℚ) (force : Bool) (hc : env.connected = true) :
    set_color env st failAt (PyVal.rgb r g b) force =
      Except.ok
        (⟨st.lastWord, st.lastTimestamp,
           (dispatch env st.currentColor failAt (PyVal.rgb r g b) force).1,
           st.lightIsFallback⟩,
         (dispatch env st.currentColor failAt (PyVal.rgb r g b) force).2.1,
         (dispatch env st.currentColor failAt (PyVal.rgb r g b) force).2.2,
         PyVal.rgb r g b) := by
  unfold set_color
  rw [hc, if_neg true_ne_false_aux]
  rfl

theorem set_color_flag_aux (env : Env) (st : TState) (failAt : Option ℕ) (c : PyVal)
    (f : Bool) (st1 : TState) (calls : List DeviceCall) (prints : List String) (ret : PyVal)
    (h : set_color env st failAt c f = Except.ok (st1, calls, prints, ret)) :
    st1.lightIsFallback = st.lightIsFallback := by
  unfold set_color at h
  by_cases h1 : env.connected = false
  · rw [if_pos h1] at h
    cases h
    rfl
  · rw [if_neg h1] at h
    rcases hp : parseStage c with e | v
    · rw [hp] at h
      exact Except.noConfusion h
    · rw [hp] at h
      cases h
      rfl

/-- C1 (amended): once `lastWord` equals the current token, `try_highlight_word`
is suppressed unconditionally — no dispatch and no state change — regardless of
how much time has elapsed, because the guard at line 192 requires
`lastWord != word`.  (The spec's rule, suppression iff less than 1000 ms
elapsed, fails: see `no_redispatch_same_word_after_1500ms`.) -/
theorem sameWord_always_suppressed (env : Env) (st : TState) (word : String)
    (ns1 ns2 : ℕ) (failAt : Option ℕ) (h : st.lastWord = some word) :
    try_highlight_word env st word ns1 ns2 failAt = Except.ok (st, []) := by
  unfold try_highlight_word
  rw [if_neg fun hc => hc.1 h]

/-- Witness for `sameWord_always_suppressed` at a concrete state and token. -/
theorem sameWord_always_suppressed_witness :
    stInit.lastWord = some "" ∧
    try_highlight_word envC stInit "" 0 0 Option.none = Except.ok (stInit, []) :=
  ⟨rfl, sameWord_always_suppressed envC stInit "" 0 0 Option.none rfl⟩

/-- C1 (counterexample to the claim as stated): `onToken("#abc123", t)`
dispatches, the call at `t+500ms` is suppressed, but the call at `t+1500ms`
with the same token is ALSO suppressed (empty device-call list, state
unchanged — in particular `lastTimestamp` is not updated), contradicting the
claim that it dispatches again after 1000 ms.  Times are nanosecond counts:
`t = 10^7`, `t + 5·10^8` (500 ms later), `t + 15·10^8` (1500 ms later). -/
theorem no_redispatch_same_word_after_1500ms :
    try_highlight_word envC stInit "#abc123" (10 ^ 7) (10 ^ 7) Option.none =
      Except.ok
        (⟨some "#abc123", 1, PyVal.rgb (171/255) (193/255) (35/255), true⟩,
         [DeviceCall.setOn true, DeviceCall.setBri 255, DeviceCall.getLights,
          DeviceCall.setXY (171/255) (193/255) (35/255)]) ∧
    try_highlight_word envC
        ⟨some "#abc123", 1, PyVal.rgb (171/255) (193/255) (35/255), true⟩
        "#abc123" (10 ^ 7 + 5 * 10 ^ 8) (10 ^ 7 + 5 * 10 ^ 8) Option.none =
      Except.ok (⟨some "#abc123", 1, PyVal.rgb (171/255) (193/255) (35/255), true⟩, []) ∧
    try_highlight_word envC
        ⟨some "#abc123", 1, PyVal.rgb (171/255) (193/255) (35/255), true⟩
        "#abc123" (10 ^ 7 + 15 * 10 ^ 8) (10 ^ 7 + 15 * 10 ^ 8) Option.none =
      Except.ok (⟨some "#abc123", 1, PyVal.rgb (171/255) (193/255) (35/255), true⟩, []) := by
  refine ⟨?_, ?_, ?_⟩ <;> with_unfolding_all decide

/-- C2 (amended): the tracker classifies a token as a color iff the token
STARTS with `#` followed by at least three hex digits — `re.match` on
`colorPattern` is a prefix match, so trailing characters (including a 4th or
5th hex digit, or arbitrary junk) do not prevent a match.  Tokens that are
entirely `#` plus exactly 3 or 6 hex digits do all match. -/
theorem colorPattern_prefix_characterization (s : String) :
    (colorPatternMatch s = true ↔
      ∃ a b c rest, s.data = '#' :: a :: b :: c :: rest ∧
        hexChar a = true ∧ hexChar b = true ∧ hexChar c = true) ∧
    (specColorExact s = true → colorPatternMatch s = true) := by
  have main : ∀ l : List Char, colorPatternMatchL l = true ↔
      ∃ a b c rest, l = '#' :: a :: b :: c :: rest ∧
        hexChar a = true ∧ hexChar b = true ∧ hexChar c = true := by
    intro l
    match l with
    | [] =>
      rw [show colorPatternMatchL [] = false from rfl]
      simp
    | [c0] =>
      rw [show colorPatternMatchL [c0] = false from rfl]
      simp
    | [c0, c1] =>
      rw [show colorPatternMatchL [c0, c1] = false from rfl]
      simp
    | [c0, c1, c2] =>
      rw [show colorPatternMatchL [c0, c1, c2] = false from rfl]
      simp
    | c0 :: c1 :: c2 :: c3 :: rest =>
      rw [show colorPatternMatchL (c0 :: c1 :: c2 :: c3 :: rest) =
        (if c0 = '#' then hexChar c1 && hexChar c2 && hexChar c3 else false) from rfl]
      by_cases h0 : c0 = '#'
      · subst h0
        rw [if_pos rfl]
        constructor
        · intro hh
          rw [Bool.and_eq_true, Bool.and_eq_true] at hh
          exact ⟨c1, c2, c3, rest, rfl, hh.1.1, hh.1.2, hh.2⟩
        · rintro ⟨a, b, c, rest1, heq, ha, hb, hc⟩
          cases heq
          rw [ha, hb, hc]
          rfl
      · rw [if_neg h0]
        constructor
        · intro hh
          exact Bool.noConfusion hh
        · rintro ⟨a, b, c, rest1, heq, -, -, -⟩
          cases heq
          exact absurd rfl h0
  have sound : ∀ l : List Char, specColorExactL l = true → colorPatternMatchL l = true := by
    intro l h
    match l with
    | [] => exact Bool.noConfusion h
    | c0 :: rest =>
      rw [show specColorExactL (c0 :: rest) =
        (if c0 = '#' then (rest.length == 3 || rest.length == 6) && rest.all hexChar
         else false) from rfl] at h
      by_cases h0 : c0 = '#'
      · subst h0
        rw [if_pos rfl, Bool.and_eq_true] at h
        obtain ⟨hlen, hall⟩ := h
        rcases rest with _ | ⟨a, _ | ⟨b, _ | ⟨c, rest1⟩⟩⟩
        · simp at hlen
        · simp at hlen
        · simp at hlen
        · rw [show colorPatternMatchL ('#' :: a :: b :: c :: rest1) =
            (if ('#' : Char) = '#' then hexChar a && hexChar b && hexChar c
             else false) from rfl, if_pos rfl]
          rw [List.all_cons, List.all_cons, List.all_cons, Bool.and_eq_true,
            Bool.and_eq_true, Bool.and_eq_true] at hall
          rw [hall.1, hall.2.1, hall.2.2.1]
          rfl
      · rw [if_neg h0] at h
        exact Bool.noConfusion h
  exact ⟨main s.data, fun h => sound s.data h⟩

/-- C2 (counterexample to the claim as stated): the token `"#abcd"` has four
hex digits after `#` — the claim says it must be treated as a non-match — but
the code classifies it as a color. -/
theorem colorPattern_accepts_four_hex_digits :
    colorPatternMatch "#abcd" = true ∧ specColorExact "#abcd" = false := by
  with_unfolding_all decide

/-- C3 (evaluation at the failing input): the parser of `_set_color`
(lines 158-160) does not expand 3-digit hex tokens; the third slice
`color.lstrip('#')[4:6]` of `"f80"` is empty, so `int('', 16)` raises an
uncaught `ValueError` (modelled as `Option.none`).  The 6-digit forms parse
channel-wise to `value/255` exactly as the claim states, and `"#ff8800"`
yields `(1, 136/255, 0)`, which is NOT what `"#f80"` produces. -/
theorem parse_three_digit_token_fails :
    parseColorStr "#f80" = Option.none ∧
    parseColorStr "#ff8000" = some (PyVal.rgb 1 (128/255) 0) ∧
    parseColorStr "#ff8800" = some (PyVal.rgb 1 (136/255) 0) := by
  refine ⟨?_, ?_, ?_⟩ <;> with_unfolding_all decide

/-- C5 (amended): a DEVICE-call failure (the `k`-th bridge call raising,
`k` within the attempted call sequence) is caught by the `except` clause of
`_set_color`: no exception escapes, the printed warning aside nothing is
observable, and the whole tracker state — in particular `currentColor`, the
recorded last-applied color — is exactly as before the attempt.  (Failures
while PARSING the token are not covered by the `try` block and propagate:
see `parse_error_propagates`.) -/
theorem device_failure_caught_state_preserved (env : Env) (st : TState) (k : ℕ)
    (r g b : ℚ) (force : Bool) (hc : env.connected = true)
    (hk : k < (plannedCalls env (PyVal.rgb r g b)).length) :
    ∃ done prints,
      set_color env st (some k) (PyVal.rgb r g b) force =
        Except.ok (st, done, prints, PyVal.rgb r g b) := by
  rw [set_color_connected_rgb env st (some k) r g b force hc]
  unfold dispatch
  by_cases hd : st.currentColor ≠ PyVal.rgb r g b ∨ force = true
  · rw [if_pos hd]
    have hr : runTry env st.currentColor (some k) (PyVal.rgb r g b) =
        (st.currentColor, (plannedCalls env (PyVal.rgb r g b)).take k, [hiHueError]) := by
      simp only [runTry]
      rw [if_pos hk]
    rw [hr]
    exact ⟨(plannedCalls env (PyVal.rgb r g b)).take k, [hiHueError], rfl⟩
  · rw [if_neg hd]
    exact ⟨[], [], rfl⟩

/-- Witness for `device_failure_caught_state_preserved`: the first bridge
call failing while dispatching red from the initial connected state. -/
theorem device_failure_caught_state_preserved_witness :
    envC.connected = true ∧ 0 < (plannedCalls envC (PyVal.rgb 1 0 0)).length ∧
    ∃ done prints,
      set_color envC stInit (some 0) (PyVal.rgb 1 0 0) false =
        Except.ok (stInit, done, prints, PyVal.rgb 1 0 0) :=
  ⟨rfl, (by with_unfolding_all decide),
    device_failure_caught_state_preserved envC stInit 0 1 0 0 false rfl
      (by with_unfolding_all decide)⟩

/-- C5 (counterexample to the claim as stated): the token `"#abc"` matches
`colorPattern`, so the tracker calls `_set_color("#abc")`; the hex parsing at
lines 158-160 happens BEFORE the `try` block, and its `ValueError` (empty
third slice) propagates out of `try_highlight_word` to the host process
instead of being caught. -/
theorem parse_error_propagates :
    try_highlight_word envC stInit "#abc" (10 ^ 7) (10 ^ 7) Option.none =
      Except.error (PyErr.valueError "invalid literal for int() with base 16") := by
  with_unfolding_all decide

/-- C6 (amended): while not connected (`bridge is None or config is None`),
`_set_color` performs no device calls, prints "No bridge or config", leaves
the whole state unchanged — but it returns Python `None` (bare `return` at
line 157), NOT the sample it was given. -/
theorem set_color_disconnected_noop (env : Env) (st : TState) (failAt : Option ℕ)
    (color : PyVal) (force : Bool) (h : env.connected = false) :
    set_color env st failAt color force =
      Except.ok (st, [], [noBridgeMsg], PyVal.none) := by
  unfold set_color
  rw [if_pos h]

/-- Witness for `set_color_disconnected_noop` at a concrete disconnected
environment and sample. -/
theorem set_color_disconnected_noop_witness :
    envD.connected = false ∧
    set_color envD stInit Option.none (PyVal.rgb 1 0 0) false =
      Except.ok (stInit, [], [noBridgeMsg], PyVal.none) :=
  ⟨rfl, set_color_disconnected_noop envD stInit Option.none (PyVal.rgb 1 0 0) false rfl⟩

/-- C6 (counterexample to the claim as stated): disconnected, with the sample
red, `_set_color` returns `None`, which is not the sample — the claim's
"returns the sample unchanged" is false. -/
theorem set_color_disconnected_returns_none :
    set_color envD stInit Option.none (PyVal.rgb 1 0 0) false =
      Except.ok (stInit, [], [noBridgeMsg], PyVal.none) ∧
    PyVal.none ≠ PyVal.rgb 1 0 0 := by
  refine ⟨rfl, ?_⟩
  intro h
  cases h

/-- C7: dispatch is idempotent.  From a connected state whose recorded
`currentColor` differs from the tuple sample, `_set_color(sample, force=False)`
runs the full device-call sequence once and records the sample; the immediate
second call with the same sample finds `currentColor == color`, performs no
device calls, prints nothing, and changes no state. -/
theorem set_color_idempotent (env : Env) (st : TState) (r g b : ℚ)
    (hc : env.connected = true) (hne : st.currentColor ≠ PyVal.rgb r g b) :
    set_color env st Option.none (PyVal.rgb r g b) false =
      Except.ok (⟨st.lastWord, st.lastTimestamp, PyVal.rgb r g b, st.lightIsFallback⟩,
        plannedCalls env (PyVal.rgb r g b), [], PyVal.rgb r g b) ∧
    plannedCalls env (PyVal.rgb r g b) ≠ [] ∧
    set_color env ⟨st.lastWord, st.lastTimestamp, PyVal.rgb r g b, st.lightIsFallback⟩
        Option.none (PyVal.rgb r g b) false =
      Except.ok (⟨st.lastWord, st.lastTimestamp, PyVal.rgb r g b, st.lightIsFallback⟩,
        [], [], PyVal.rgb r g b) := by
  refine ⟨?_, ?_, ?_⟩
  · rw [set_color_connected_rgb env st Option.none r g b false hc]
    unfold dispatch
    rw [if_pos (Or.inl hne)]
    have hr : runTry env st.currentColor Option.none (PyVal.rgb r g b) =
        (PyVal.rgb r g b, plannedCalls env (PyVal.rgb r g b), []) := by
      simp only [runTry]
      rw [if_pos (show tryCompletes (PyVal.rgb r g b) = true from rfl)]
    rw [hr]
  · rw [show plannedCalls env (PyVal.rgb r g b) =
      (if ((r, g, b) : ℚ × ℚ × ℚ) ≠ ((0 : ℚ), (0 : ℚ), (0 : ℚ)) then
        [DeviceCall.setOn true, DeviceCall.setBri (pyTrunc (env.maxBrightness * 255)),
         DeviceCall.getLights, DeviceCall.setXY r g b]
      else [DeviceCall.setOn false]) from rfl]
    split <;> simp
  · rw [set_color_connected_rgb env ⟨st.lastWord, st.lastTimestamp, PyVal.rgb r g b,
      st.lightIsFallback⟩ Option.none r g b false hc]
    unfold dispatch
    rw [if_neg (by simp)]

/-- Witness for `set_color_idempotent`: dispatching red twice from the
initial connected state. -/
theorem set_color_idempotent_witness :
    stInit.currentColor ≠ PyVal.rgb 1 0 0 ∧
    set_color envC stInit Option.none (PyVal.rgb 1 0 0) false =
      Except.ok (⟨some "", 0, PyVal.rgb 1 0 0, true⟩,
        plannedCalls envC (PyVal.rgb 1 0 0), [], PyVal.rgb 1 0 0) ∧
    set_color envC ⟨some "", 0, PyVal.rgb 1 0 0, true⟩
        Option.none (PyVal.rgb 1 0 0) false =
      Except.ok (⟨some "", 0, PyVal.rgb 1 0 0, true⟩, [], [], PyVal.rgb 1 0 0) := by
  have h := set_color_idempotent envC stInit 1 0 0 rfl (fun hh => PyVal.noConfusion hh)
  exact ⟨fun hh => PyVal.noConfusion hh, h.1, h.2.2⟩

/-- C8 (the code at the failing input): the assignments to `lightIsFallback`
at lines 196 and 200 lack a `global` declaration (lines 190-191 declare only
`lastWord` and `lastTimestamp`), so they bind a function-local variable and
the module-level flag read by `status()` is NEVER changed by a token event —
in particular it does not become `false` after a non-suppressed color match
as the claim requires. -/
theorem lightIsFallback_never_updated (env : Env) (st : TState) (word : String)
    (ns1 ns2 : ℕ) (failAt : Option ℕ) (st1 : TState) (calls : List DeviceCall)
    (h : try_highlight_word env st word ns1 ns2 failAt = Except.ok (st1, calls)) :
    st1.lightIsFallback = st.lightIsFallback := by
  unfold try_highlight_word at h
  by_cases hg : st.lastWord ≠ some word ∧
      (1000 : ℤ) ≤ Int.ofNat (ns1 / 10 ^ 4) - Int.ofNat st.lastTimestamp
  · rw [if_pos hg] at h
    by_cases hm : colorPatternMatch word = true
    · rw [if_pos hm] at h
      rcases hs : set_color env st failAt (PyVal.str word) false with e | ⟨st2, calls2, prints2, ret2⟩
      · rw [hs] at h
        exact Except.noConfusion h
      · rw [hs] at h
        cases h
        exact set_color_flag_aux env st failAt (PyVal.str word) false st2 _ _ _ hs
    · rw [if_neg hm] at h
      by_cases hf : env.fallbackEnabled = true
      · rw [if_pos hf] at h
        rcases hs : set_color env st failAt env.fallbackColor false with e | ⟨st2, calls2, prints2, ret2⟩
        · rw [hs] at h
          exact Except.noConfusion h
        · rw [hs] at h
          cases h
          exact set_color_flag_aux env st failAt env.fallbackColor false st2 _ _ _ hs
      · rw [if_neg hf] at h
        cases h
        rfl
  · rw [if_neg hg] at h
    cases h
    rfl

/-- Witness for `lightIsFallback_never_updated`: the non-suppressed matching
event `"#abc123"` from the initial state (flag `true`) leaves the flag
`true`, where the claim says `status()` must now read `false`. -/
theorem lightIsFallback_never_updated_witness :
    try_highlight_word envC stInit "#abc123" (10 ^ 7) (10 ^ 7) Option.none =
      Except.ok
        (⟨some "#abc123", 1, PyVal.rgb (171/255) (193/255) (35/255), true⟩,
         [DeviceCall.setOn true, DeviceCall.setBri 255, DeviceCall.getLights,
          DeviceCall.setXY (171/255) (193/255) (35/255)]) ∧
    (⟨some "#abc123", 1, PyVal.rgb (171/255) (193/255) (35/255), true⟩ : TState).lightIsFallback =
      stInit.lightIsFallback := by
  have h : try_highlight_word envC stInit "#abc123" (10 ^ 7) (10 ^ 7) Option.none =
      Except.ok
        (⟨some "#abc123", 1, PyVal.rgb (171/255) (193/255) (35/255), true⟩,
         [DeviceCall.setOn true, DeviceCall.setBri 255, DeviceCall.getLights,
          DeviceCall.setXY (171/255) (193/255) (35/255)]) := by
    with_unfolding_all decide
  exact ⟨h, lightIsFallback_never_updated envC stInit "#abc123" _ _ Option.none _ _ h⟩

/-- C9: `connect` invoked with exactly one positional argument evaluates the
undefined name `arg` in the classification branch at line 233 and raises a
`NameError` before setting any variable or connecting. -/
theorem connect_single_argument_name_error (a : String) :
    connect [a] = Except.error (PyErr.nameError "arg") :=
  rfl

/-- C10: `connect` invoked with more than two positional arguments prints
"Too many arguments" and returns: no vim variable is written and the globals
`bridge` and `config` are not rebound. -/
theorem connect_too_many_arguments (vargs : List String) (h : 2 < vargs.length) :
    connect vargs =
      Except.ok ⟨["Too many arguments"], Option.none, Option.none, false⟩ := by
  unfold connect
  rw [if_pos h]

/-- Witness for `connect_too_many_arguments` at a concrete three-argument
call. -/
theorem connect_too_many_arguments_witness :
    2 < (["10.0.0.1", "Desk", "extra"] : List String).length ∧
    connect ["10.0.0.1", "Desk", "extra"] =
      Except.ok ⟨["Too many arguments"], Option.none, Option.none, false⟩ :=
  ⟨by decide, connect_too_many_arguments ["10.0.0.1", "Desk", "extra"] (by decide)⟩

theorem gammaCorrect_eq_specGamma (c : ℝ) : gammaCorrect c = specGamma c := by
  unfold gammaCorrect specGamma
  rcases le_or_lt c 0.04045 with h | h
  · rw [if_neg (not_lt.2 h), if_pos h]
  · rw [if_pos h, if_neg (not_le.2 h)]
    norm_num

/-- C4 (amended): `_rgb_to_xy` performs the claimed gamma expansion and
tristimulus matrix, and normalizes the first coordinate as the claim states
(`x = X/(X+Y+Z)`), but because line 138 overwrites `x` before line 139 runs,
the second coordinate is `y = Y/(x + Y + Z)` with `x` the ALREADY NORMALIZED
value — not `Y/(X+Y+Z)` as claimed. -/
theorem rgb_to_xy_normalizes_y_sequentially (r g b : ℝ) :
    rgb_to_xy r g b =
      (specX r g b / (specX r g b + specY r g b + specZ g b),
       specY r g b /
         (specX r g b / (specX r g b + specY r g b + specZ g b) +
           specY r g b + specZ g b)) := by
  simp only [rgb_to_xy, specX, specY, specZ, gammaCorrect_eq_specGamma, Prod.mk.injEq]
  constructor <;> ring_nf

/-- C4 (counterexample to the claim as stated): at the in-range, nonzero
input `(0.04, 0.04, 0.04)` (all channels in the linear gamma branch) the
code's output differs from the claimed `(X/(X+Y+Z), Y/(X+Y+Z))`. -/
theorem rgb_to_xy_differs_from_spec_normalization :
    rgb_to_xy 0.04 0.04 0.04 ≠ spec_toDeviceColorSpace 0.04 0.04 0.04 := by
  have hg : gammaCorrect 0.04 = 0.04 / 12.92 := by
    unfold gammaCorrect
    rw [if_neg (by norm_num)]
  have hs : specGamma 0.04 = 0.04 / 12.92 := by
    unfold specGamma
    rw [if_pos (by norm_num)]
  intro h
  have h2 := congrArg Prod.snd h
  simp only [rgb_to_xy, spec_toDeviceColorSpace, specX, specY, specZ, hg, hs] at h2
  norm_num at h2

end HiHue
